import Mathlib

/-!
A verification development for the `function_generator.py` script of
`java-function-extra`.  The script enumerates candidate functional-interface
signatures (ordered argument-type tuples of length 0..4 over a fixed type
catalog, crossed with every return type), filters them, synthesizes an
interface name, semantic role, capability set and target package for each
survivor, and emits one Java source file per surviving non-reserved name.

The definitions below are a shallow embedding of that script: each mirrors
one table or one block of the source.  Theorems about the embedding settle
the specification's claims.
-/

namespace FunctionGenerator

/-- The type tags of the catalog (`type_names` keys, in dictionary order):
a no-value tag, a generic object tag, boolean/numeric scalars, and one
array-segment tag per scalar plus a generic-object array-segment tag. -/
inductive Ty where
  | void | object | boolean | byte | char | double | float | int | long | short
  | objectArr | booleanArr | byteArr | charArr | doubleArr | floatArr | intArr
  | longArr | shortArr
deriving DecidableEq, Repr, Fintype

/-- The ordered catalog, mirroring `types = tuple(type_names.keys())`. -/
def types : List Ty :=
  [.void, .object, .boolean, .byte, .char, .double, .float, .int, .long, .short,
   .objectArr, .booleanArr, .byteArr, .charArr, .doubleArr, .floatArr, .intArr,
   .longArr, .shortArr]

/-- The dictionary key of a tag, i.e. the Python string the script uses for
comparisons such as `a.endswith("[]")` and for Java type positions. -/
def tyKey : Ty → String
  | .void => "void"
  | .object => "object"
  | .boolean => "boolean"
  | .byte => "byte"
  | .char => "char"
  | .double => "double"
  | .float => "float"
  | .int => "int"
  | .long => "long"
  | .short => "short"
  | .objectArr => "object[]"
  | .booleanArr => "boolean[]"
  | .byteArr => "byte[]"
  | .charArr => "char[]"
  | .doubleArr => "double[]"
  | .floatArr => "float[]"
  | .intArr => "int[]"
  | .longArr => "long[]"
  | .shortArr => "short[]"

/-- The `type_names` dictionary: a naming fragment per tag (`None` for the
no-value tag, the empty fragment for the generic object tag). -/
def type_names : Ty → Option String
  | .void => none
  | .object => some ""
  | .boolean => some "Boolean"
  | .byte => some "Byte"
  | .char => some "Char"
  | .double => some "Double"
  | .float => some "Float"
  | .int => some "Int"
  | .long => some "Long"
  | .short => some "Short"
  | .objectArr => some "ArraySegment"
  | .booleanArr => some "BooleanArraySegment"
  | .byteArr => some "ByteArraySegment"
  | .charArr => some "CharArraySegment"
  | .doubleArr => some "DoubleArraySegment"
  | .floatArr => some "FloatArraySegment"
  | .intArr => some "IntArraySegment"
  | .longArr => some "LongArraySegment"
  | .shortArr => some "ShortArraySegment"

/-- Total view of `type_names`.  The script only ever reads `type_names[t]`
for tags other than `void`, where the entry is present. -/
def tyName (t : Ty) : String := (type_names t).getD ""

/-- `a.endswith("[]")`, tabulated per tag: true exactly for the nine tags
whose `tyKey` ends in `"[]"`. -/
def isArr : Ty → Bool
  | .objectArr | .booleanArr | .byteArr | .charArr | .doubleArr | .floatArr
  | .intArr | .longArr | .shortArr => true
  | _ => false

/-- `fn_ordinals = (None, "", "Bi", "Tri", "Tetra")`, read at indices 1..4. -/
def fn_ordinals : Nat → String
  | 1 => ""
  | 2 => "Bi"
  | 3 => "Tri"
  | 4 => "Tetra"
  | _ => ""

/-- `op_ordinals = (None, "Unary", "Binary", "Ternary", "Quaternary")`. -/
def op_ordinals : Nat → String
  | 1 => "Unary"
  | 2 => "Binary"
  | 3 => "Ternary"
  | 4 => "Quaternary"
  | _ => ""

/-- `in_params = (None, "T", "U", "V", "W")`. -/
def in_params : Nat → String
  | 1 => "T"
  | 2 => "U"
  | 3 => "V"
  | 4 => "W"
  | _ => ""

/-- `out_params = (None, "R", "S", "Q", "P")`. -/
def out_params : Nat → String
  | 1 => "R"
  | 2 => "S"
  | 3 => "Q"
  | 4 => "P"
  | _ => ""

/-- `elem_params = (None, "E", "F", "G", "H")`. -/
def elem_params : Nat → String
  | 1 => "E"
  | 2 => "F"
  | 3 => "G"
  | 4 => "H"
  | _ => ""

/-- The reserved pre-existing interface names (`built_ins`). -/
def built_ins : List String :=
  ["Runnable", "BiConsumer", "BiFunction", "BinaryOperator", "BiPredicate",
   "BooleanSupplier", "Consumer", "DoubleBinaryOperator", "DoubleConsumer",
   "DoubleFunction", "DoublePredicate", "DoubleSupplier", "DoubleToIntFunction",
   "DoubleToLongFunction", "DoubleUnaryOperator", "Function", "IntBinaryOperator",
   "IntConsumer", "IntFunction", "IntPredicate", "IntSupplier",
   "IntToDoubleFunction", "IntToLongFunction", "IntUnaryOperator",
   "LongBinaryOperator", "LongConsumer", "LongFunction", "LongPredicate",
   "LongSupplier", "LongToDoubleFunction", "LongToIntFunction",
   "LongUnaryOperator", "ObjDoubleConsumer", "ObjIntConsumer", "ObjLongConsumer",
   "Predicate", "Supplier", "ToDoubleBiFunction", "ToDoubleFunction",
   "ToIntBiFunction", "ToIntFunction", "ToLongBiFunction", "ToLongFunction",
   "UnaryOperator"]

/-- `len(set(l))`: the number of distinct elements of `l`. -/
def nDistinct (l : List Ty) : Nat := l.dedup.length

/-- `set(l) == {t}`: `l` is non-empty and every element equals `t`. -/
def setEq1 (l : List Ty) (t : Ty) : Bool := !l.isEmpty && l.all (· == t)

/-- `sum(1 for a in argv if a.endswith("[]"))`. -/
def countArr (l : List Ty) : Nat := (l.filter isArr).length

/-- The argument-tuple admission filter: the three `continue` conditions the
script applies to `argv` before entering the return-type loop (mixed argument
types only as object + one other type; more than two arguments only when all
are objects; at most one array-segment argument). -/
def admitArgs (argv : List Ty) : Bool :=
  let argc := argv.length
  (!(decide (argc > 1) && decide (nDistinct argv > 1) &&
      (!(argv.headD .void == .object) || decide (nDistinct (argv.drop 1) > 1)))) &&
  (!(decide (argc > 2) && !(setEq1 argv .object))) &&
  (!(decide (countArr argv > 1)))

/-- The return-type admission filter: the `continue` conditions the script
applies to `ret` inside the return-type loop. -/
def admitRet (argv : List Ty) (ret : Ty) : Bool :=
  let argc := argv.length
  (!(isArr ret)) &&
  (if argv.any isArr then
    (!(!(ret ∈ [Ty.object, .boolean, .void, .int, .long, .double] : Bool) &&
        !(argv.any (fun a => tyKey a == tyKey ret ++ "[]"))))
   else
    (!(decide (argc > 1) &&
        !(ret ∈ [Ty.object, .boolean, .void] : Bool) && !(argv.contains ret) &&
        (decide (argc > 2) || !(setEq1 argv .object)))) &&
    (!(decide (argc > 2) && !(ret ∈ [Ty.object, .boolean] : Bool))))

/-- `itertools.product(ts, repeat=n)` as an ordered list of `n`-tuples, the
first position varying slowest (the iteration order of the script). -/
def productR (ts : List Ty) : Nat → List (List Ty)
  | 0 => [[]]
  | n + 1 => ts.flatMap (fun t => (productR ts n).map (t :: ·))

/-- `types[1:]`: the argument-type catalog (everything but `void`). -/
def argTys : List Ty := types.drop 1

/-- The full candidate space of argument tuples: `for argc in range(0, 5):
for argv in itertools.product(types[1:], repeat=argc)`. -/
def argLists : List (List Ty) :=
  (List.range 5).flatMap (fun argc => productR argTys argc)

/-- The argument tuples that survive `admitArgs`, listed explicitly. -/
def A47 : List (List Ty) :=
  [[],
   [.object], [.boolean], [.byte], [.char], [.double], [.float], [.int],
   [.long], [.short], [.objectArr], [.booleanArr], [.byteArr], [.charArr],
   [.doubleArr], [.floatArr], [.intArr], [.longArr], [.shortArr],
   [.object, .object], [.object, .boolean], [.object, .byte], [.object, .char],
   [.object, .double], [.object, .float], [.object, .int], [.object, .long],
   [.object, .short], [.object, .objectArr], [.object, .booleanArr],
   [.object, .byteArr], [.object, .charArr], [.object, .doubleArr],
   [.object, .floatArr], [.object, .intArr], [.object, .longArr],
   [.object, .shortArr],
   [.boolean, .boolean], [.byte, .byte], [.char, .char], [.double, .double],
   [.float, .float], [.int, .int], [.long, .long], [.short, .short],
   [.object, .object, .object], [.object, .object, .object, .object]]

/-! The descriptor synthesizer: name, method name, semantic role, target
package and capability set, mirroring the body of the return-type loop. -/

/-- `"Obj" if a == "object" else type_names[a]` (used when joining the
fragments of a heterogeneous or multi-set argument list). -/
def objFrag (a : Ty) : String := if a == .object then "Obj" else tyName a

/-- `"".join(objFrag(a) for a in argv)`. -/
def joinFrags (argv : List Ty) : String := String.join (argv.map objFrag)

/-- Name synthesis: the `name`/`mthd` assignment chain of the script
(`argc == 0` supplier/runnable, `ret == void` consumer, operator, predicate,
function, and the `To...Function` fallback). Returns `(name, mthd)`. -/
def synthName (argv : List Ty) (ret : Ty) : String × String :=
  let argc := argv.length
  if argc == 0 then
    if ret == .void then ("Runnable", "run")
    else (tyName ret ++ "Supplier",
          if ret != .object then "getAs" ++ tyName ret else "get")
  else if ret == .void then
    ((if nDistinct argv == 1 then
        tyName (argv.headD .void) ++ fn_ordinals argc ++ "Consumer"
      else joinFrags argv ++ "Consumer"), "accept")
  else if ret != .object && setEq1 argv ret then
    (tyName (argv.headD .void) ++ op_ordinals argc ++ "Operator",
     "applyAs" ++ tyName ret)
  else if ret == .boolean then
    ((if nDistinct argv == 1 then
        tyName (argv.headD .void) ++ fn_ordinals argc ++ "Predicate"
      else joinFrags argv ++ "Predicate"), "test")
  else if ret == .object then
    ((if nDistinct argv == 1 then
        tyName (argv.headD .void) ++ fn_ordinals argc ++ "Function"
      else joinFrags argv ++ "Function"), "apply")
  else
    ((if nDistinct argv == 1 then
        tyName (argv.headD .void) ++ "To" ++ tyName ret ++ fn_ordinals argc ++
          "Function"
      else joinFrags argv ++ "To" ++ tyName ret ++ "Function"),
     "applyAs" ++ tyName ret)

/-- The semantic role of a descriptor, one per branch of the naming chain. -/
inductive Role where
  | action | supplier | consumer | operator | predicate | function
  | indexedFunction
deriving DecidableEq, Repr

/-- Role determination: the branch of the naming chain that fires. -/
def roleOf (argv : List Ty) (ret : Ty) : Role :=
  if argv.length == 0 then (if ret == .void then .action else .supplier)
  else if ret == .void then .consumer
  else if ret != .object && setEq1 argv ret then .operator
  else if ret == .boolean then .predicate
  else if ret == .object then .function
  else .indexedFunction

/-- The optional combinator methods.  `staticNegated` is the static
`negated()` of the all-boolean unary operator; `instanceNegated` is the
instance `negated()` of a genuine predicate; the others correspond to the
`identity`, `andThen`, `compose`, `and`, `or` method templates. -/
inductive Cap where
  | identity | staticNegated | andThen | compose | logicalAnd | logicalOr
  | instanceNegated
deriving DecidableEq, Repr

/-- Capability derivation: the admission conditions of the method-template
blocks, in source order (identity; static negated; the three-way
`andThen` chain; the two-way `compose` chain; the predicate methods). -/
def caps (argv : List Ty) (ret : Ty) : List Cap :=
  let argc := argv.length
  (if argc == 1 && ret != .object && setEq1 argv ret then [Cap.identity]
   else []) ++
  (if argc == 1 && ret == .boolean && setEq1 argv .boolean then
     [Cap.staticNegated]
   else []) ++
  (if ret == .void then [Cap.andThen]
   else if ret == .object then [Cap.andThen]
   else if argc == 1 && setEq1 argv ret then [Cap.andThen]
   else []) ++
  (if argc == 1 && setEq1 argv .object then [Cap.compose]
   else if argc == 1 && setEq1 argv ret then [Cap.compose]
   else []) ++
  (if decide (argc > 0) && ret == .boolean && !(setEq1 argv .boolean) then
     [Cap.logicalAnd, Cap.logicalOr, Cap.instanceNegated]
   else [])

/-- `base_pkg`. -/
def base_pkg : String := "me.dkleszyk.java.function.extra"

/-- The target package of a descriptor: the base package when all argument
types are object/int/long/double and the return type is
object/int/long/double/boolean/void; the `.array` subpackage when some
argument is an array segment; the `.primitive` subpackage otherwise. -/
def package (argv : List Ty) (ret : Ty) : String :=
  if argv.all (fun a => a == .object || a == .int || a == .long || a == .double)
      &&
     (ret == .object || ret == .int || ret == .long || ret == .double ||
      ret == .boolean || ret == .void) then
    base_pkg
  else if argv.any isArr then
    base_pkg ++ ".array"
  else
    base_pkg ++ ".primitive"

/-- The specification's three-way group label for a descriptor, read off the
target package (base → core, `.array` → array-based, `.primitive` →
primitive-mixed). -/
def groupOf (argv : List Ty) (ret : Ty) : String :=
  if package argv ret == base_pkg then "core"
  else if package argv ret == base_pkg ++ ".array" then "array-based"
  else "primitive-mixed"

/-- The durable per-signature artifact record. -/
structure Desc where
  argv : List Ty
  ret : Ty
  name : String
  mthd : String
  role : Role
  group : String
  caps : List Cap
deriving DecidableEq, Repr

/-- `synthesize(signature)`: the descriptor of a filter-admitted signature. -/
def synthesize (argv : List Ty) (ret : Ty) : Desc :=
  { argv := argv
    ret := ret
    name := (synthName argv ret).1
    mthd := (synthName argv ret).2
    role := roleOf argv ret
    group := groupOf argv ret
    caps := caps argv ret }

/-- The signatures that survive both filters, in enumeration order: for each
admitted argument tuple, every return type in catalog order that passes
`admitRet`. -/
def sigsFrom (argvs : List (List Ty)) : List (List Ty × Ty) :=
  argvs.flatMap (fun argv =>
    (types.filter (admitRet argv)).map (fun ret => (argv, ret)))

/-- Descriptor emission: synthesize each surviving signature and drop those
whose name collides with the reserved set (`if name in built_ins: continue`). -/
def emitFrom (argvs : List (List Ty)) (reserved : List String) : List Desc :=
  (sigsFrom argvs).filterMap (fun s =>
    let d := synthesize s.1 s.2
    if reserved.contains d.name then none else some d)

/-- All signatures surviving the filters in one full run. -/
def survivingSigs : List (List Ty × Ty) := sigsFrom (argLists.filter admitArgs)

/-- One full run of the generator against a reserved-name set. -/
def run (reserved : List String) : List Desc :=
  emitFrom (argLists.filter admitArgs) reserved

/-- The descriptors emitted by the actual run (reserved set = `built_ins`). -/
def emitted : List Desc := run built_ins

/-- The `names` diagnostic list: the emitted descriptor names in order. -/
def emittedNames : List String := emitted.map (·.name)

/-- A numeric key for a string: its characters read as a base-256 numeral.
Distinct keys imply distinct strings, which is all the uniqueness and
disjointness proofs use (no injectivity assumption is needed in that
direction). -/
def strKey (s : String) : Nat :=
  s.data.foldl (fun a c => a * 256 + c.toNat) 0

/-! Semantics of the predicate-combinator bodies.  The `and` method's body is
the single expression `test(args) && other.test(args)` and the `or` method's
body is `test(args) || other.test(args)`; Java's `&&`/`||` short-circuit, as
does Lean's `Bool` conjunction/disjunction used to model them. -/

/-- The compound predicate produced by the `and` method: this predicate's
method applied to the arguments, combined with the other's by `&&`. -/
def andBody {α : Type} (p other : α → Bool) : α → Bool :=
  fun a => p a && other a

/-- The compound predicate produced by the `or` method: this predicate's
method applied to the arguments, combined with the other's by `||`. -/
def orBody {α : Type} (p other : α → Bool) : α → Bool :=
  fun a => p a || other a

/-! The rendering layer: the generic-parameter list, the expanded argument
list, the text fragments, and the code lines of each method (the
documentation-comment blocks, which the specification assigns to the external
line-wrapping collaborator, are not modelled). -/

/-- Number of `object` arguments (`in_param_cnt`). -/
def countObj (argv : List Ty) : Nat := (argv.filter (· == Ty.object)).length

/-- Number of `object[]` arguments (`elem_param_cnt`). -/
def countObjArr (argv : List Ty) : Nat :=
  (argv.filter (· == Ty.objectArr)).length

/-- The generic-parameter names of `p_list`, in source order: one `in_param`
per object argument, one `elem_param` per object-array argument, then one
`out_param` when the return type is object.  (The accompanying prose
descriptions feed only the documentation block and are not modelled.) -/
def pList (argv : List Ty) (ret : Ty) : List String :=
  ((List.range' 1 (countObj argv)).map in_params) ++
  ((List.range' 1 (countObjArr argv)).map elem_params) ++
  (if ret == .object then [out_params 1] else [])

/-- One argument's descriptor slots `(type, name, abbreviated name)`: a plain
value slot, or — for an array-segment argument — an array slot followed by
inclusive-start and exclusive-end index slots.  `n` is the 1-based position
used for suffixes and for the element-type parameter of an `object[]`
argument; `multi` selects the numeric suffixes of the repeated-argument
loop. -/
def expandArg (a : Ty) (n : Nat) (multi : Bool) :
    List (String × String × String) :=
  let suf := if multi then Nat.repr n else ""
  let typeStr := if a == .objectArr then elem_params n ++ "[]" else tyKey a
  if isArr a then
    [(typeStr, "array" ++ suf, "arr" ++ suf),
     ("int", "fromIndex" ++ suf, "from" ++ suf),
     ("int", "toIndex" ++ suf, "to" ++ suf)]
  else
    [(typeStr, "value" ++ suf, "val" ++ suf)]

/-- The expanded argument list `a_list` as `(type, name, abbreviated name)`
triples, following the script's four branches (all-object arguments;
one or two uniform scalar arguments; a leading object argument plus one
other argument; uniform arguments with numeric suffixes).  The prose
descriptions are not modelled. -/
def aList (argv : List Ty) (ret : Ty) : List (String × String × String) :=
  let argc := argv.length
  if argc == 0 then []
  else if setEq1 argv .object then
    (List.range' 1 argc).map (fun n =>
      (in_params n, (in_params n).toLower, (in_params n).toLower))
  else if (argc == 1 || argc == 2) && nDistinct argv == 1 &&
      !(argv.any isArr) then
    if argc == 1 then
      [(tyKey (argv.headD .void),
        if setEq1 argv ret then "operand" else "value", "x")]
    else
      [(tyKey (argv.headD .void), "left", "x"),
       (tyKey (argv.getD 1 .void), "right", "y")]
  else if argv.headD .void == .object then
    ("T", "obj", "obj") :: expandArg (argv.getD 1 .void) 1 false
  else if argc == 1 then expandArg (argv.headD .void) 1 false
  else (List.range' 1 argc).flatMap (fun n => expandArg (argv.headD .void) n true)

/-- `a_text`: the abbreviated argument names, comma-separated. -/
def aText (argv : List Ty) (ret : Ty) : String :=
  String.intercalate ", " ((aList argv ret).map (fun x => x.2.2))

/-- `par_a_text`: `a_text`, parenthesized unless there is exactly one
argument slot. -/
def parAText (argv : List Ty) (ret : Ty) : String :=
  if (aList argv ret).length == 1 then aText argv ret
  else "(" ++ aText argv ret ++ ")"

/-- `p_text`: the angle-bracketed generic-parameter list, or empty. -/
def pText (argv : List Ty) (ret : Ty) : String :=
  if (pList argv ret).isEmpty then ""
  else "<" ++ String.intercalate ", " (pList argv ret) ++ ">"

/-- One item of `var_p_text`: input parameters are contravariant, output
parameters covariant, element parameters invariant.  (The script's final
`else None` arm is unreachable: `p_list` only contains these parameters.) -/
def varPItem (p : String) : String :=
  if p == "T" || p == "U" || p == "V" || p == "W" then "? super " ++ p
  else if p == "R" || p == "S" || p == "Q" || p == "P" then "? extends " ++ p
  else p

/-- `var_p_text`: the wildcard form of the generic-parameter list. -/
def varPText (argv : List Ty) (ret : Ty) : String :=
  if (pList argv ret).isEmpty then ""
  else "<" ++ String.intercalate ", " ((pList argv ret).map varPItem) ++ ">"

/-- `f"        return {lmbd};"` with `$` replaced by a line break and twelve
spaces when the lambda text exceeds 64 characters, else by a space. -/
def retLine (lmbd : String) : String :=
  ("        return " ++ lmbd ++ ";").replace "$"
    (if lmbd.length > 64 then "\n            " else " ")

/-- The code lines of the functional-interface method (without its
documentation block). -/
def primaryMethod (argv : List Ty) (ret : Ty) : List String :=
  let rslt := if ret == .object then out_params 1 else tyKey ret
  let m := (synthName argv ret).2
  let al := aList argv ret
  if argv.length == 0 then ["    " ++ rslt ++ " " ++ m ++ "();"]
  else
    ["    " ++ rslt ++ " " ++ m ++ "("] ++
    (al.dropLast.map (fun x => "        final " ++ x.1 ++ " " ++ x.2.1 ++ ",")) ++
    ((al.drop (al.length - 1)).map (fun x =>
      "        final " ++ x.1 ++ " " ++ x.2.1 ++ ");"))

/-- The code lines of the static `identity()` method. -/
def identityMethod (argv : List Ty) (ret : Ty) : List String :=
  let name := (synthName argv ret).1
  let lmbd := parAText argv ret ++ " ->$" ++ aText argv ret
  ["    static " ++ name ++ " identity()", "    \x7b", retLine lmbd, "    \x7d"]

/-- The code lines of the static `negated()` method of the all-boolean unary
operator. -/
def staticNegatedMethod (argv : List Ty) (ret : Ty) : List String :=
  let name := (synthName argv ret).1
  let lmbd := parAText argv ret ++ " ->$!" ++ aText argv ret
  ["    static " ++ name ++ " negated()", "    \x7b", retLine lmbd, "    \x7d"]

/-- The code lines of `andThen` for a no-value-returning descriptor. -/
def andThenVoidMethod (argv : List Ty) (ret : Ty) : List String :=
  let name := (synthName argv ret).1
  let m := (synthName argv ret).2
  ["    default " ++ name ++ pText argv ret ++ " andThen(",
   "        final " ++ name ++ varPText argv ret ++ " after)",
   "    \x7b",
   "        Objects.requireNonNull(after);",
   "        return " ++ parAText argv ret ++ " ->",
   "        \x7b",
   "            " ++ m ++ "(" ++ aText argv ret ++ ");",
   "            after." ++ m ++ "(" ++ aText argv ret ++ ");",
   "        \x7d;",
   "    \x7d"]

/-- The code lines of `andThen` for an object-returning descriptor. -/
def andThenObjectMethod (argv : List Ty) (ret : Ty) : List String :=
  let name := (synthName argv ret).1
  let m := (synthName argv ret).2
  let o1 := out_params 1
  let o2 := out_params 2
  let pText2 := "<" ++
    String.intercalate ", "
      ((pList argv ret).map (fun p => if p == o1 then o2 else p)) ++ ">"
  let lmbd := parAText argv ret ++ " ->$after.apply(" ++ m ++ "(" ++
    aText argv ret ++ "))"
  ["    default <" ++ o2 ++ "> " ++ name ++ pText2 ++ " andThen(",
   "        final Function<? super " ++ o1 ++ ", ? extends " ++ o2 ++
     "> after)",
   "    \x7b",
   "        Objects.requireNonNull(after);",
   retLine lmbd,
   "    \x7d"]

/-- The code lines of `andThen` for a unary operator. -/
def andThenOperatorMethod (argv : List Ty) (ret : Ty) : List String :=
  let name := (synthName argv ret).1
  let m := (synthName argv ret).2
  let lmbd := parAText argv ret ++ " ->$after." ++ m ++ "(" ++ m ++ "(" ++
    aText argv ret ++ "))"
  ["    default " ++ name ++ " andThen(",
   "        final " ++ name ++ " after)",
   "    \x7b",
   "        Objects.requireNonNull(after);",
   retLine lmbd,
   "    \x7d"]

/-- The code lines of `compose` for a single-object-argument descriptor. -/
def composeObjectMethod (argv : List Ty) (ret : Ty) : List String :=
  let name := (synthName argv ret).1
  let m := (synthName argv ret).2
  let i1 := in_params 1
  let i2 := in_params 2
  let pText2 := "<" ++
    String.intercalate ", "
      ((pList argv ret).map (fun p => if p == i1 then i2 else p)) ++ ">"
  let lmbd := parAText argv ret ++ " ->$" ++ m ++ "(before.apply(" ++
    aText argv ret ++ "))"
  ["    default <" ++ i2 ++ "> " ++ name ++ pText2 ++ " compose(",
   "        final Function<? super " ++ i2 ++ ", ? extends " ++ i1 ++
     "> before)",
   "    \x7b",
   "        Objects.requireNonNull(before);",
   retLine lmbd,
   "    \x7d"]

/-- The code lines of `compose` for a unary operator. -/
def composeOperatorMethod (argv : List Ty) (ret : Ty) : List String :=
  let name := (synthName argv ret).1
  let m := (synthName argv ret).2
  let lmbd := parAText argv ret ++ " ->$" ++ m ++ "(before." ++ m ++ "(" ++
    aText argv ret ++ "))"
  ["    default " ++ name ++ " compose(",
   "        final " ++ name ++ " before)",
   "    \x7b",
   "        Objects.requireNonNull(before);",
   retLine lmbd,
   "    \x7d"]

/-- The code lines of the predicate `and` method; its single-expression body
is the `&&` combination modelled by `andBody`. -/
def andMethod (argv : List Ty) (ret : Ty) : List String :=
  let name := (synthName argv ret).1
  let m := (synthName argv ret).2
  let lmbd := parAText argv ret ++ " ->$" ++ m ++ "(" ++ aText argv ret ++
    ") && other." ++ m ++ "(" ++ aText argv ret ++ ")"
  ["    default " ++ name ++ pText argv ret ++ " and(",
   "        final " ++ name ++ varPText argv ret ++ " other)",
   "    \x7b",
   "        Objects.requireNonNull(other);",
   retLine lmbd,
   "    \x7d"]

/-- The code lines of the predicate `or` method; its single-expression body
is the `||` combination modelled by `orBody`. -/
def orMethod (argv : List Ty) (ret : Ty) : List String :=
  let name := (synthName argv ret).1
  let m := (synthName argv ret).2
  let lmbd := parAText argv ret ++ " ->$" ++ m ++ "(" ++ aText argv ret ++
    ") || other." ++ m ++ "(" ++ aText argv ret ++ ")"
  ["    default " ++ name ++ pText argv ret ++ " or(",
   "        final " ++ name ++ varPText argv ret ++ " other)",
   "    \x7b",
   "        Objects.requireNonNull(other);",
   retLine lmbd,
   "    \x7d"]

/-- The code lines of the instance `negated()` method of a predicate. -/
def instanceNegatedMethod (argv : List Ty) (ret : Ty) : List String :=
  let name := (synthName argv ret).1
  let m := (synthName argv ret).2
  let lmbd := parAText argv ret ++ " ->$!" ++ m ++ "(" ++ aText argv ret ++ ")"
  ["    default " ++ name ++ pText argv ret ++ " negated()",
   "    \x7b",
   retLine lmbd,
   "    \x7d"]

/-- The `static_methods` dictionary as a key-ordered association list. -/
def staticMethodsOf (argv : List Ty) (ret : Ty) : List (String × List String) :=
  let argc := argv.length
  (if argc == 1 && ret != .object && setEq1 argv ret then
     [("identity", identityMethod argv ret)]
   else []) ++
  (if argc == 1 && ret == .boolean && setEq1 argv .boolean then
     [("negated", staticNegatedMethod argv ret)]
   else [])

/-- The `instance_methods` dictionary as an insertion-ordered association
list: the functional-interface method, then the applicable `andThen`,
`compose`, `and`, `or`, `negated` variants. -/
def instanceMethodsOf (argv : List Ty) (ret : Ty) :
    List (String × List String) :=
  let argc := argv.length
  [((synthName argv ret).2, primaryMethod argv ret)] ++
  (if ret == .void then [("andThen", andThenVoidMethod argv ret)]
   else if ret == .object then [("andThen", andThenObjectMethod argv ret)]
   else if argc == 1 && setEq1 argv ret then
     [("andThen", andThenOperatorMethod argv ret)]
   else []) ++
  (if argc == 1 && setEq1 argv .object then
     [("compose", composeObjectMethod argv ret)]
   else if argc == 1 && setEq1 argv ret then
     [("compose", composeOperatorMethod argv ret)]
   else []) ++
  (if decide (argc > 0) && ret == .boolean && !(setEq1 argv .boolean) then
     [("and", andMethod argv ret), ("or", orMethod argv ret),
      ("negated", instanceNegatedMethod argv ret)]
   else [])

/-- `all_methods`: the static methods sorted by key, then the instance
methods sorted by key (Python's `sorted(static_methods)` /
`sorted(instance_methods)`). -/
def methodsOf (argv : List Ty) (ret : Ty) : List (String × List String) :=
  ((staticMethodsOf argv ret).mergeSort (fun a b => decide (a.1 ≤ b.1))) ++
  ((instanceMethodsOf argv ret).mergeSort (fun a b => decide (a.1 ≤ b.1)))

/-- The import list of the emitted file, in sorted order.  `java.util.Objects`
is added by every `andThen`/`compose`/`and`/`or` branch;
`java.util.function.Function` by the object-return `andThen` branch and the
single-object-argument `compose` branch.  (`static_imports` is never
populated by the script.) -/
def importsOf (argv : List Ty) (ret : Ty) : List String :=
  let c := caps argv ret
  ((if c.contains Cap.andThen || c.contains Cap.compose ||
      c.contains Cap.logicalAnd then ["java.util.Objects"] else []) ++
   (if ret == .object || (argv.length == 1 && setEq1 argv .object) then
      ["java.util.function.Function"] else [])).mergeSort
    (fun a b => decide (a ≤ b))

/-- A fully rendered artifact: the descriptor together with its import list
and its ordered method code lines (the license header, package line,
documentation comments and final brace being fixed framing or external
wrapping). -/
structure Rendered where
  desc : Desc
  imports : List String
  methods : List (String × List String)
deriving DecidableEq, Repr

/-- Render one signature. -/
def render (argv : List Ty) (ret : Ty) : Rendered :=
  { desc := synthesize argv ret
    imports := importsOf argv ret
    methods := methodsOf argv ret }

/-- One full run of the generator at the rendered level: every surviving,
non-reserved signature's rendered artifact, in emission order. -/
def renderRun (reserved : List String) : List Rendered :=
  (sigsFrom (argLists.filter admitArgs)).filterMap (fun s =>
    let r := render s.1 s.2
    if reserved.contains r.desc.name then none else some r)


/-- Emitted descriptors 1..25 of the run, in order. -/
def E250p0 : List Desc :=
  [
⟨[], .byte, "ByteSupplier", "getAsByte", .supplier, "primitive-mixed", []⟩,
   ⟨[], .char, "CharSupplier", "getAsChar", .supplier, "primitive-mixed", []⟩,
   ⟨[], .float, "FloatSupplier", "getAsFloat", .supplier, "primitive-mixed", []⟩,
   ⟨[], .short, "ShortSupplier", "getAsShort", .supplier, "primitive-mixed", []⟩,
   ⟨[.object], .byte, "ToByteFunction", "applyAsByte", .indexedFunction, "primitive-mixed", [.compose]⟩,
   ⟨[.object], .char, "ToCharFunction", "applyAsChar", .indexedFunction, "primitive-mixed", [.compose]⟩,
   ⟨[.object], .float, "ToFloatFunction", "applyAsFloat", .indexedFunction, "primitive-mixed", [.compose]⟩,
   ⟨[.object], .short, "ToShortFunction", "applyAsShort", .indexedFunction, "primitive-mixed", [.compose]⟩,
   ⟨[.boolean], .void, "BooleanConsumer", "accept", .consumer, "primitive-mixed", [.andThen]⟩,
   ⟨[.boolean], .object, "BooleanFunction", "apply", .function, "primitive-mixed", [.andThen]⟩,
   ⟨[.boolean], .boolean, "BooleanUnaryOperator", "applyAsBoolean", .operator, "primitive-mixed", [.identity, .staticNegated, .andThen, .compose]⟩,
   ⟨[.boolean], .byte, "BooleanToByteFunction", "applyAsByte", .indexedFunction, "primitive-mixed", []⟩,
   ⟨[.boolean], .char, "BooleanToCharFunction", "applyAsChar", .indexedFunction, "primitive-mixed", []⟩,
   ⟨[.boolean], .double, "BooleanToDoubleFunction", "applyAsDouble", .indexedFunction, "primitive-mixed", []⟩,
   ⟨[.boolean], .float, "BooleanToFloatFunction", "applyAsFloat", .indexedFunction, "primitive-mixed", []⟩,
   ⟨[.boolean], .int, "BooleanToIntFunction", "applyAsInt", .indexedFunction, "primitive-mixed", []⟩,
   ⟨[.boolean], .long, "BooleanToLongFunction", "applyAsLong", .indexedFunction, "primitive-mixed", []⟩,
   ⟨[.boolean], .short, "BooleanToShortFunction", "applyAsShort", .indexedFunction, "primitive-mixed", []⟩,
   ⟨[.byte], .void, "ByteConsumer", "accept", .consumer, "primitive-mixed", [.andThen]⟩,
   ⟨[.byte], .object, "ByteFunction", "apply", .function, "primitive-mixed", [.andThen]⟩,
   ⟨[.byte], .boolean, "BytePredicate", "test", .predicate, "primitive-mixed", [.logicalAnd, .logicalOr, .instanceNegated]⟩,
   ⟨[.byte], .byte, "ByteUnaryOperator", "applyAsByte", .operator, "primitive-mixed", [.identity, .andThen, .compose]⟩,
   ⟨[.byte], .char, "ByteToCharFunction", "applyAsChar", .indexedFunction, "primitive-mixed", []⟩,
   ⟨[.byte], .double, "ByteToDoubleFunction", "applyAsDouble", .indexedFunction, "primitive-mixed", []⟩,
   ⟨[.byte], .float, "ByteToFloatFunction", "applyAsFloat", .indexedFunction, "primitive-mixed", []⟩
  ]

/-- Emitted descriptors 26..50 of the run, in order. -/
def E250p1 : List Desc :=
  [
   ⟨[.byte], .int, "ByteToIntFunction", "applyAsInt", .indexedFunction, "primitive-mixed", []⟩,
   ⟨[.byte], .long, "ByteToLongFunction", "applyAsLong", .indexedFunction, "primitive-mixed", []⟩,
   ⟨[.byte], .short, "ByteToShortFunction", "applyAsShort", .indexedFunction, "primitive-mixed", []⟩,
   ⟨[.char], .void, "CharConsumer", "accept", .consumer, "primitive-mixed", [.andThen]⟩,
   ⟨[.char], .object, "CharFunction", "apply", .function, "primitive-mixed", [.andThen]⟩,
   ⟨[.char], .boolean, "CharPredicate", "test", .predicate, "primitive-mixed", [.logicalAnd, .logicalOr, .instanceNegated]⟩,
   ⟨[.char], .byte, "CharToByteFunction", "applyAsByte", .indexedFunction, "primitive-mixed", []⟩,
   ⟨[.char], .char, "CharUnaryOperator", "applyAsChar", .operator, "primitive-mixed", [.identity, .andThen, .compose]⟩,
   ⟨[.char], .double, "CharToDoubleFunction", "applyAsDouble", .indexedFunction, "primitive-mixed", []⟩,
   ⟨[.char], .float, "CharToFloatFunction", "applyAsFloat", .indexedFunction, "primitive-mixed", []⟩,
   ⟨[.char], .int, "CharToIntFunction", "applyAsInt", .indexedFunction, "primitive-mixed", []⟩,
   ⟨[.char], .long, "CharToLongFunction", "applyAsLong", .indexedFunction, "primitive-mixed", []⟩,
   ⟨[.char], .short, "CharToShortFunction", "applyAsShort", .indexedFunction, "primitive-mixed", []⟩,
   ⟨[.double], .byte, "DoubleToByteFunction", "applyAsByte", .indexedFunction, "primitive-mixed", []⟩,
   ⟨[.double], .char, "DoubleToCharFunction", "applyAsChar", .indexedFunction, "primitive-mixed", []⟩,
   ⟨[.double], .float, "DoubleToFloatFunction", "applyAsFloat", .indexedFunction, "primitive-mixed", []⟩,
   ⟨[.double], .short, "DoubleToShortFunction", "applyAsShort", .indexedFunction, "primitive-mixed", []⟩,
   ⟨[.float], .void, "FloatConsumer", "accept", .consumer, "primitive-mixed", [.andThen]⟩,
   ⟨[.float], .object, "FloatFunction", "apply", .function, "primitive-mixed", [.andThen]⟩,
   ⟨[.float], .boolean, "FloatPredicate", "test", .predicate, "primitive-mixed", [.logicalAnd, .logicalOr, .instanceNegated]⟩,
   ⟨[.float], .byte, "FloatToByteFunction", "applyAsByte", .indexedFunction, "primitive-mixed", []⟩,
   ⟨[.float], .char, "FloatToCharFunction", "applyAsChar", .indexedFunction, "primitive-mixed", []⟩,
   ⟨[.float], .double, "FloatToDoubleFunction", "applyAsDouble", .indexedFunction, "primitive-mixed", []⟩,
   ⟨[.float], .float, "FloatUnaryOperator", "applyAsFloat", .operator, "primitive-mixed", [.identity, .andThen, .compose]⟩,
   ⟨[.float], .int, "FloatToIntFunction", "applyAsInt", .indexedFunction, "primitive-mixed", []⟩
  ]

/-- Emitted descriptors 51..75 of the run, in order. -/
def E250p2 : List Desc :=
  [
   ⟨[.float], .long, "FloatToLongFunction", "applyAsLong", .indexedFunction, "primitive-mixed", []⟩,
   ⟨[.float], .short, "FloatToShortFunction", "applyAsShort", .indexedFunction, "primitive-mixed", []⟩,
   ⟨[.int], .byte, "IntToByteFunction", "applyAsByte", .indexedFunction, "primitive-mixed", []⟩,
   ⟨[.int], .char, "IntToCharFunction", "applyAsChar", .indexedFunction, "primitive-mixed", []⟩,
   ⟨[.int], .float, "IntToFloatFunction", "applyAsFloat", .indexedFunction, "primitive-mixed", []⟩,
   ⟨[.int], .short, "IntToShortFunction", "applyAsShort", .indexedFunction, "primitive-mixed", []⟩,
   ⟨[.long], .byte, "LongToByteFunction", "applyAsByte", .indexedFunction, "primitive-mixed", []⟩,
   ⟨[.long], .char, "LongToCharFunction", "applyAsChar", .indexedFunction, "primitive-mixed", []⟩,
   ⟨[.long], .float, "LongToFloatFunction", "applyAsFloat", .indexedFunction, "primitive-mixed", []⟩,
   ⟨[.long], .short, "LongToShortFunction", "applyAsShort", .indexedFunction, "primitive-mixed", []⟩,
   ⟨[.short], .void, "ShortConsumer", "accept", .consumer, "primitive-mixed", [.andThen]⟩,
   ⟨[.short], .object, "ShortFunction", "apply", .function, "primitive-mixed", [.andThen]⟩,
   ⟨[.short], .boolean, "ShortPredicate", "test", .predicate, "primitive-mixed", [.logicalAnd, .logicalOr, .instanceNegated]⟩,
   ⟨[.short], .byte, "ShortToByteFunction", "applyAsByte", .indexedFunction, "primitive-mixed", []⟩,
   ⟨[.short], .char, "ShortToCharFunction", "applyAsChar", .indexedFunction, "primitive-mixed", []⟩,
   ⟨[.short], .double, "ShortToDoubleFunction", "applyAsDouble", .indexedFunction, "primitive-mixed", []⟩,
   ⟨[.short], .float, "ShortToFloatFunction", "applyAsFloat", .indexedFunction, "primitive-mixed", []⟩,
   ⟨[.short], .int, "ShortToIntFunction", "applyAsInt", .indexedFunction, "primitive-mixed", []⟩,
   ⟨[.short], .long, "ShortToLongFunction", "applyAsLong", .indexedFunction, "primitive-mixed", []⟩,
   ⟨[.short], .short, "ShortUnaryOperator", "applyAsShort", .operator, "primitive-mixed", [.identity, .andThen, .compose]⟩,
   ⟨[.objectArr], .void, "ArraySegmentConsumer", "accept", .consumer, "array-based", [.andThen]⟩,
   ⟨[.objectArr], .object, "ArraySegmentFunction", "apply", .function, "array-based", [.andThen]⟩,
   ⟨[.objectArr], .boolean, "ArraySegmentPredicate", "test", .predicate, "array-based", [.logicalAnd, .logicalOr, .instanceNegated]⟩,
   ⟨[.objectArr], .double, "ArraySegmentToDoubleFunction", "applyAsDouble", .indexedFunction, "array-based", []⟩,
   ⟨[.objectArr], .int, "ArraySegmentToIntFunction", "applyAsInt", .indexedFunction, "array-based", []⟩
  ]

/-- Emitted descriptors 76..100 of the run, in order. -/
def E250p3 : List Desc :=
  [
   ⟨[.objectArr], .long, "ArraySegmentToLongFunction", "applyAsLong", .indexedFunction, "array-based", []⟩,
   ⟨[.booleanArr], .void, "BooleanArraySegmentConsumer", "accept", .consumer, "array-based", [.andThen]⟩,
   ⟨[.booleanArr], .object, "BooleanArraySegmentFunction", "apply", .function, "array-based", [.andThen]⟩,
   ⟨[.booleanArr], .boolean, "BooleanArraySegmentPredicate", "test", .predicate, "array-based", [.logicalAnd, .logicalOr, .instanceNegated]⟩,
   ⟨[.booleanArr], .double, "BooleanArraySegmentToDoubleFunction", "applyAsDouble", .indexedFunction, "array-based", []⟩,
   ⟨[.booleanArr], .int, "BooleanArraySegmentToIntFunction", "applyAsInt", .indexedFunction, "array-based", []⟩,
   ⟨[.booleanArr], .long, "BooleanArraySegmentToLongFunction", "applyAsLong", .indexedFunction, "array-based", []⟩,
   ⟨[.byteArr], .void, "ByteArraySegmentConsumer", "accept", .consumer, "array-based", [.andThen]⟩,
   ⟨[.byteArr], .object, "ByteArraySegmentFunction", "apply", .function, "array-based", [.andThen]⟩,
   ⟨[.byteArr], .boolean, "ByteArraySegmentPredicate", "test", .predicate, "array-based", [.logicalAnd, .logicalOr, .instanceNegated]⟩,
   ⟨[.byteArr], .byte, "ByteArraySegmentToByteFunction", "applyAsByte", .indexedFunction, "array-based", []⟩,
   ⟨[.byteArr], .double, "ByteArraySegmentToDoubleFunction", "applyAsDouble", .indexedFunction, "array-based", []⟩,
   ⟨[.byteArr], .int, "ByteArraySegmentToIntFunction", "applyAsInt", .indexedFunction, "array-based", []⟩,
   ⟨[.byteArr], .long, "ByteArraySegmentToLongFunction", "applyAsLong", .indexedFunction, "array-based", []⟩,
   ⟨[.charArr], .void, "CharArraySegmentConsumer", "accept", .consumer, "array-based", [.andThen]⟩,
   ⟨[.charArr], .object, "CharArraySegmentFunction", "apply", .function, "array-based", [.andThen]⟩,
   ⟨[.charArr], .boolean, "CharArraySegmentPredicate", "test", .predicate, "array-based", [.logicalAnd, .logicalOr, .instanceNegated]⟩,
   ⟨[.charArr], .char, "CharArraySegmentToCharFunction", "applyAsChar", .indexedFunction, "array-based", []⟩,
   ⟨[.charArr], .double, "CharArraySegmentToDoubleFunction", "applyAsDouble", .indexedFunction, "array-based", []⟩,
   ⟨[.charArr], .int, "CharArraySegmentToIntFunction", "applyAsInt", .indexedFunction, "array-based", []⟩,
   ⟨[.charArr], .long, "CharArraySegmentToLongFunction", "applyAsLong", .indexedFunction, "array-based", []⟩,
   ⟨[.doubleArr], .void, "DoubleArraySegmentConsumer", "accept", .consumer, "array-based", [.andThen]⟩,
   ⟨[.doubleArr], .object, "DoubleArraySegmentFunction", "apply", .function, "array-based", [.andThen]⟩,
   ⟨[.doubleArr], .boolean, "DoubleArraySegmentPredicate", "test", .predicate, "array-based", [.logicalAnd, .logicalOr, .instanceNegated]⟩,
   ⟨[.doubleArr], .double, "DoubleArraySegmentToDoubleFunction", "applyAsDouble", .indexedFunction, "array-based", []⟩
  ]

/-- Emitted descriptors 101..125 of the run, in order. -/
def E250p4 : List Desc :=
  [
   ⟨[.doubleArr], .int, "DoubleArraySegmentToIntFunction", "applyAsInt", .indexedFunction, "array-based", []⟩,
   ⟨[.doubleArr], .long, "DoubleArraySegmentToLongFunction", "applyAsLong", .indexedFunction, "array-based", []⟩,
   ⟨[.floatArr], .void, "FloatArraySegmentConsumer", "accept", .consumer, "array-based", [.andThen]⟩,
   ⟨[.floatArr], .object, "FloatArraySegmentFunction", "apply", .function, "array-based", [.andThen]⟩,
   ⟨[.floatArr], .boolean, "FloatArraySegmentPredicate", "test", .predicate, "array-based", [.logicalAnd, .logicalOr, .instanceNegated]⟩,
   ⟨[.floatArr], .double, "FloatArraySegmentToDoubleFunction", "applyAsDouble", .indexedFunction, "array-based", []⟩,
   ⟨[.floatArr], .float, "FloatArraySegmentToFloatFunction", "applyAsFloat", .indexedFunction, "array-based", []⟩,
   ⟨[.floatArr], .int, "FloatArraySegmentToIntFunction", "applyAsInt", .indexedFunction, "array-based", []⟩,
   ⟨[.floatArr], .long, "FloatArraySegmentToLongFunction", "applyAsLong", .indexedFunction, "array-based", []⟩,
   ⟨[.intArr], .void, "IntArraySegmentConsumer", "accept", .consumer, "array-based", [.andThen]⟩,
   ⟨[.intArr], .object, "IntArraySegmentFunction", "apply", .function, "array-based", [.andThen]⟩,
   ⟨[.intArr], .boolean, "IntArraySegmentPredicate", "test", .predicate, "array-based", [.logicalAnd, .logicalOr, .instanceNegated]⟩,
   ⟨[.intArr], .double, "IntArraySegmentToDoubleFunction", "applyAsDouble", .indexedFunction, "array-based", []⟩,
   ⟨[.intArr], .int, "IntArraySegmentToIntFunction", "applyAsInt", .indexedFunction, "array-based", []⟩,
   ⟨[.intArr], .long, "IntArraySegmentToLongFunction", "applyAsLong", .indexedFunction, "array-based", []⟩,
   ⟨[.longArr], .void, "LongArraySegmentConsumer", "accept", .consumer, "array-based", [.andThen]⟩,
   ⟨[.longArr], .object, "LongArraySegmentFunction", "apply", .function, "array-based", [.andThen]⟩,
   ⟨[.longArr], .boolean, "LongArraySegmentPredicate", "test", .predicate, "array-based", [.logicalAnd, .logicalOr, .instanceNegated]⟩,
   ⟨[.longArr], .double, "LongArraySegmentToDoubleFunction", "applyAsDouble", .indexedFunction, "array-based", []⟩,
   ⟨[.longArr], .int, "LongArraySegmentToIntFunction", "applyAsInt", .indexedFunction, "array-based", []⟩,
   ⟨[.longArr], .long, "LongArraySegmentToLongFunction", "applyAsLong", .indexedFunction, "array-based", []⟩,
   ⟨[.shortArr], .void, "ShortArraySegmentConsumer", "accept", .consumer, "array-based", [.andThen]⟩,
   ⟨[.shortArr], .object, "ShortArraySegmentFunction", "apply", .function, "array-based", [.andThen]⟩,
   ⟨[.shortArr], .boolean, "ShortArraySegmentPredicate", "test", .predicate, "array-based", [.logicalAnd, .logicalOr, .instanceNegated]⟩,
   ⟨[.shortArr], .double, "ShortArraySegmentToDoubleFunction", "applyAsDouble", .indexedFunction, "array-based", []⟩
  ]

/-- Emitted descriptors 126..150 of the run, in order. -/
def E250p5 : List Desc :=
  [
   ⟨[.shortArr], .int, "ShortArraySegmentToIntFunction", "applyAsInt", .indexedFunction, "array-based", []⟩,
   ⟨[.shortArr], .long, "ShortArraySegmentToLongFunction", "applyAsLong", .indexedFunction, "array-based", []⟩,
   ⟨[.shortArr], .short, "ShortArraySegmentToShortFunction", "applyAsShort", .indexedFunction, "array-based", []⟩,
   ⟨[.object, .object], .byte, "ToByteBiFunction", "applyAsByte", .indexedFunction, "primitive-mixed", []⟩,
   ⟨[.object, .object], .char, "ToCharBiFunction", "applyAsChar", .indexedFunction, "primitive-mixed", []⟩,
   ⟨[.object, .object], .float, "ToFloatBiFunction", "applyAsFloat", .indexedFunction, "primitive-mixed", []⟩,
   ⟨[.object, .object], .short, "ToShortBiFunction", "applyAsShort", .indexedFunction, "primitive-mixed", []⟩,
   ⟨[.object, .boolean], .void, "ObjBooleanConsumer", "accept", .consumer, "primitive-mixed", [.andThen]⟩,
   ⟨[.object, .boolean], .object, "ObjBooleanFunction", "apply", .function, "primitive-mixed", [.andThen]⟩,
   ⟨[.object, .boolean], .boolean, "ObjBooleanPredicate", "test", .predicate, "primitive-mixed", [.logicalAnd, .logicalOr, .instanceNegated]⟩,
   ⟨[.object, .byte], .void, "ObjByteConsumer", "accept", .consumer, "primitive-mixed", [.andThen]⟩,
   ⟨[.object, .byte], .object, "ObjByteFunction", "apply", .function, "primitive-mixed", [.andThen]⟩,
   ⟨[.object, .byte], .boolean, "ObjBytePredicate", "test", .predicate, "primitive-mixed", [.logicalAnd, .logicalOr, .instanceNegated]⟩,
   ⟨[.object, .byte], .byte, "ObjByteToByteFunction", "applyAsByte", .indexedFunction, "primitive-mixed", []⟩,
   ⟨[.object, .char], .void, "ObjCharConsumer", "accept", .consumer, "primitive-mixed", [.andThen]⟩,
   ⟨[.object, .char], .object, "ObjCharFunction", "apply", .function, "primitive-mixed", [.andThen]⟩,
   ⟨[.object, .char], .boolean, "ObjCharPredicate", "test", .predicate, "primitive-mixed", [.logicalAnd, .logicalOr, .instanceNegated]⟩,
   ⟨[.object, .char], .char, "ObjCharToCharFunction", "applyAsChar", .indexedFunction, "primitive-mixed", []⟩,
   ⟨[.object, .double], .object, "ObjDoubleFunction", "apply", .function, "core", [.andThen]⟩,
   ⟨[.object, .double], .boolean, "ObjDoublePredicate", "test", .predicate, "core", [.logicalAnd, .logicalOr, .instanceNegated]⟩,
   ⟨[.object, .double], .double, "ObjDoubleToDoubleFunction", "applyAsDouble", .indexedFunction, "core", []⟩,
   ⟨[.object, .float], .void, "ObjFloatConsumer", "accept", .consumer, "primitive-mixed", [.andThen]⟩,
   ⟨[.object, .float], .object, "ObjFloatFunction", "apply", .function, "primitive-mixed", [.andThen]⟩,
   ⟨[.object, .float], .boolean, "ObjFloatPredicate", "test", .predicate, "primitive-mixed", [.logicalAnd, .logicalOr, .instanceNegated]⟩,
   ⟨[.object, .float], .float, "ObjFloatToFloatFunction", "applyAsFloat", .indexedFunction, "primitive-mixed", []⟩
  ]

/-- Emitted descriptors 151..175 of the run, in order. -/
def E250p6 : List Desc :=
  [
   ⟨[.object, .int], .object, "ObjIntFunction", "apply", .function, "core", [.andThen]⟩,
   ⟨[.object, .int], .boolean, "ObjIntPredicate", "test", .predicate, "core", [.logicalAnd, .logicalOr, .instanceNegated]⟩,
   ⟨[.object, .int], .int, "ObjIntToIntFunction", "applyAsInt", .indexedFunction, "core", []⟩,
   ⟨[.object, .long], .object, "ObjLongFunction", "apply", .function, "core", [.andThen]⟩,
   ⟨[.object, .long], .boolean, "ObjLongPredicate", "test", .predicate, "core", [.logicalAnd, .logicalOr, .instanceNegated]⟩,
   ⟨[.object, .long], .long, "ObjLongToLongFunction", "applyAsLong", .indexedFunction, "core", []⟩,
   ⟨[.object, .short], .void, "ObjShortConsumer", "accept", .consumer, "primitive-mixed", [.andThen]⟩,
   ⟨[.object, .short], .object, "ObjShortFunction", "apply", .function, "primitive-mixed", [.andThen]⟩,
   ⟨[.object, .short], .boolean, "ObjShortPredicate", "test", .predicate, "primitive-mixed", [.logicalAnd, .logicalOr, .instanceNegated]⟩,
   ⟨[.object, .short], .short, "ObjShortToShortFunction", "applyAsShort", .indexedFunction, "primitive-mixed", []⟩,
   ⟨[.object, .objectArr], .void, "ObjArraySegmentConsumer", "accept", .consumer, "array-based", [.andThen]⟩,
   ⟨[.object, .objectArr], .object, "ObjArraySegmentFunction", "apply", .function, "array-based", [.andThen]⟩,
   ⟨[.object, .objectArr], .boolean, "ObjArraySegmentPredicate", "test", .predicate, "array-based", [.logicalAnd, .logicalOr, .instanceNegated]⟩,
   ⟨[.object, .objectArr], .double, "ObjArraySegmentToDoubleFunction", "applyAsDouble", .indexedFunction, "array-based", []⟩,
   ⟨[.object, .objectArr], .int, "ObjArraySegmentToIntFunction", "applyAsInt", .indexedFunction, "array-based", []⟩,
   ⟨[.object, .objectArr], .long, "ObjArraySegmentToLongFunction", "applyAsLong", .indexedFunction, "array-based", []⟩,
   ⟨[.object, .booleanArr], .void, "ObjBooleanArraySegmentConsumer", "accept", .consumer, "array-based", [.andThen]⟩,
   ⟨[.object, .booleanArr], .object, "ObjBooleanArraySegmentFunction", "apply", .function, "array-based", [.andThen]⟩,
   ⟨[.object, .booleanArr], .boolean, "ObjBooleanArraySegmentPredicate", "test", .predicate, "array-based", [.logicalAnd, .logicalOr, .instanceNegated]⟩,
   ⟨[.object, .booleanArr], .double, "ObjBooleanArraySegmentToDoubleFunction", "applyAsDouble", .indexedFunction, "array-based", []⟩,
   ⟨[.object, .booleanArr], .int, "ObjBooleanArraySegmentToIntFunction", "applyAsInt", .indexedFunction, "array-based", []⟩,
   ⟨[.object, .booleanArr], .long, "ObjBooleanArraySegmentToLongFunction", "applyAsLong", .indexedFunction, "array-based", []⟩,
   ⟨[.object, .byteArr], .void, "ObjByteArraySegmentConsumer", "accept", .consumer, "array-based", [.andThen]⟩,
   ⟨[.object, .byteArr], .object, "ObjByteArraySegmentFunction", "apply", .function, "array-based", [.andThen]⟩,
   ⟨[.object, .byteArr], .boolean, "ObjByteArraySegmentPredicate", "test", .predicate, "array-based", [.logicalAnd, .logicalOr, .instanceNegated]⟩
  ]

/-- Emitted descriptors 176..200 of the run, in order. -/
def E250p7 : List Desc :=
  [
   ⟨[.object, .byteArr], .byte, "ObjByteArraySegmentToByteFunction", "applyAsByte", .indexedFunction, "array-based", []⟩,
   ⟨[.object, .byteArr], .double, "ObjByteArraySegmentToDoubleFunction", "applyAsDouble", .indexedFunction, "array-based", []⟩,
   ⟨[.object, .byteArr], .int, "ObjByteArraySegmentToIntFunction", "applyAsInt", .indexedFunction, "array-based", []⟩,
   ⟨[.object, .byteArr], .long, "ObjByteArraySegmentToLongFunction", "applyAsLong", .indexedFunction, "array-based", []⟩,
   ⟨[.object, .charArr], .void, "ObjCharArraySegmentConsumer", "accept", .consumer, "array-based", [.andThen]⟩,
   ⟨[.object, .charArr], .object, "ObjCharArraySegmentFunction", "apply", .function, "array-based", [.andThen]⟩,
   ⟨[.object, .charArr], .boolean, "ObjCharArraySegmentPredicate", "test", .predicate, "array-based", [.logicalAnd, .logicalOr, .instanceNegated]⟩,
   ⟨[.object, .charArr], .char, "ObjCharArraySegmentToCharFunction", "applyAsChar", .indexedFunction, "array-based", []⟩,
   ⟨[.object, .charArr], .double, "ObjCharArraySegmentToDoubleFunction", "applyAsDouble", .indexedFunction, "array-based", []⟩,
   ⟨[.object, .charArr], .int, "ObjCharArraySegmentToIntFunction", "applyAsInt", .indexedFunction, "array-based", []⟩,
   ⟨[.object, .charArr], .long, "ObjCharArraySegmentToLongFunction", "applyAsLong", .indexedFunction, "array-based", []⟩,
   ⟨[.object, .doubleArr], .void, "ObjDoubleArraySegmentConsumer", "accept", .consumer, "array-based", [.andThen]⟩,
   ⟨[.object, .doubleArr], .object, "ObjDoubleArraySegmentFunction", "apply", .function, "array-based", [.andThen]⟩,
   ⟨[.object, .doubleArr], .boolean, "ObjDoubleArraySegmentPredicate", "test", .predicate, "array-based", [.logicalAnd, .logicalOr, .instanceNegated]⟩,
   ⟨[.object, .doubleArr], .double, "ObjDoubleArraySegmentToDoubleFunction", "applyAsDouble", .indexedFunction, "array-based", []⟩,
   ⟨[.object, .doubleArr], .int, "ObjDoubleArraySegmentToIntFunction", "applyAsInt", .indexedFunction, "array-based", []⟩,
   ⟨[.object, .doubleArr], .long, "ObjDoubleArraySegmentToLongFunction", "applyAsLong", .indexedFunction, "array-based", []⟩,
   ⟨[.object, .floatArr], .void, "ObjFloatArraySegmentConsumer", "accept", .consumer, "array-based", [.andThen]⟩,
   ⟨[.object, .floatArr], .object, "ObjFloatArraySegmentFunction", "apply", .function, "array-based", [.andThen]⟩,
   ⟨[.object, .floatArr], .boolean, "ObjFloatArraySegmentPredicate", "test", .predicate, "array-based", [.logicalAnd, .logicalOr, .instanceNegated]⟩,
   ⟨[.object, .floatArr], .double, "ObjFloatArraySegmentToDoubleFunction", "applyAsDouble", .indexedFunction, "array-based", []⟩,
   ⟨[.object, .floatArr], .float, "ObjFloatArraySegmentToFloatFunction", "applyAsFloat", .indexedFunction, "array-based", []⟩,
   ⟨[.object, .floatArr], .int, "ObjFloatArraySegmentToIntFunction", "applyAsInt", .indexedFunction, "array-based", []⟩,
   ⟨[.object, .floatArr], .long, "ObjFloatArraySegmentToLongFunction", "applyAsLong", .indexedFunction, "array-based", []⟩,
   ⟨[.object, .intArr], .void, "ObjIntArraySegmentConsumer", "accept", .consumer, "array-based", [.andThen]⟩
  ]

/-- Emitted descriptors 201..225 of the run, in order. -/
def E250p8 : List Desc :=
  [
   ⟨[.object, .intArr], .object, "ObjIntArraySegmentFunction", "apply", .function, "array-based", [.andThen]⟩,
   ⟨[.object, .intArr], .boolean, "ObjIntArraySegmentPredicate", "test", .predicate, "array-based", [.logicalAnd, .logicalOr, .instanceNegated]⟩,
   ⟨[.object, .intArr], .double, "ObjIntArraySegmentToDoubleFunction", "applyAsDouble", .indexedFunction, "array-based", []⟩,
   ⟨[.object, .intArr], .int, "ObjIntArraySegmentToIntFunction", "applyAsInt", .indexedFunction, "array-based", []⟩,
   ⟨[.object, .intArr], .long, "ObjIntArraySegmentToLongFunction", "applyAsLong", .indexedFunction, "array-based", []⟩,
   ⟨[.object, .longArr], .void, "ObjLongArraySegmentConsumer", "accept", .consumer, "array-based", [.andThen]⟩,
   ⟨[.object, .longArr], .object, "ObjLongArraySegmentFunction", "apply", .function, "array-based", [.andThen]⟩,
   ⟨[.object, .longArr], .boolean, "ObjLongArraySegmentPredicate", "test", .predicate, "array-based", [.logicalAnd, .logicalOr, .instanceNegated]⟩,
   ⟨[.object, .longArr], .double, "ObjLongArraySegmentToDoubleFunction", "applyAsDouble", .indexedFunction, "array-based", []⟩,
   ⟨[.object, .longArr], .int, "ObjLongArraySegmentToIntFunction", "applyAsInt", .indexedFunction, "array-based", []⟩,
   ⟨[.object, .longArr], .long, "ObjLongArraySegmentToLongFunction", "applyAsLong", .indexedFunction, "array-based", []⟩,
   ⟨[.object, .shortArr], .void, "ObjShortArraySegmentConsumer", "accept", .consumer, "array-based", [.andThen]⟩,
   ⟨[.object, .shortArr], .object, "ObjShortArraySegmentFunction", "apply", .function, "array-based", [.andThen]⟩,
   ⟨[.object, .shortArr], .boolean, "ObjShortArraySegmentPredicate", "test", .predicate, "array-based", [.logicalAnd, .logicalOr, .instanceNegated]⟩,
   ⟨[.object, .shortArr], .double, "ObjShortArraySegmentToDoubleFunction", "applyAsDouble", .indexedFunction, "array-based", []⟩,
   ⟨[.object, .shortArr], .int, "ObjShortArraySegmentToIntFunction", "applyAsInt", .indexedFunction, "array-based", []⟩,
   ⟨[.object, .shortArr], .long, "ObjShortArraySegmentToLongFunction", "applyAsLong", .indexedFunction, "array-based", []⟩,
   ⟨[.object, .shortArr], .short, "ObjShortArraySegmentToShortFunction", "applyAsShort", .indexedFunction, "array-based", []⟩,
   ⟨[.boolean, .boolean], .void, "BooleanBiConsumer", "accept", .consumer, "primitive-mixed", [.andThen]⟩,
   ⟨[.boolean, .boolean], .object, "BooleanBiFunction", "apply", .function, "primitive-mixed", [.andThen]⟩,
   ⟨[.boolean, .boolean], .boolean, "BooleanBinaryOperator", "applyAsBoolean", .operator, "primitive-mixed", []⟩,
   ⟨[.byte, .byte], .void, "ByteBiConsumer", "accept", .consumer, "primitive-mixed", [.andThen]⟩,
   ⟨[.byte, .byte], .object, "ByteBiFunction", "apply", .function, "primitive-mixed", [.andThen]⟩,
   ⟨[.byte, .byte], .boolean, "ByteBiPredicate", "test", .predicate, "primitive-mixed", [.logicalAnd, .logicalOr, .instanceNegated]⟩,
   ⟨[.byte, .byte], .byte, "ByteBinaryOperator", "applyAsByte", .operator, "primitive-mixed", []⟩
  ]

/-- Emitted descriptors 226..250 of the run, in order. -/
def E250p9 : List Desc :=
  [
   ⟨[.char, .char], .void, "CharBiConsumer", "accept", .consumer, "primitive-mixed", [.andThen]⟩,
   ⟨[.char, .char], .object, "CharBiFunction", "apply", .function, "primitive-mixed", [.andThen]⟩,
   ⟨[.char, .char], .boolean, "CharBiPredicate", "test", .predicate, "primitive-mixed", [.logicalAnd, .logicalOr, .instanceNegated]⟩,
   ⟨[.char, .char], .char, "CharBinaryOperator", "applyAsChar", .operator, "primitive-mixed", []⟩,
   ⟨[.double, .double], .void, "DoubleBiConsumer", "accept", .consumer, "core", [.andThen]⟩,
   ⟨[.double, .double], .object, "DoubleBiFunction", "apply", .function, "core", [.andThen]⟩,
   ⟨[.double, .double], .boolean, "DoubleBiPredicate", "test", .predicate, "core", [.logicalAnd, .logicalOr, .instanceNegated]⟩,
   ⟨[.float, .float], .void, "FloatBiConsumer", "accept", .consumer, "primitive-mixed", [.andThen]⟩,
   ⟨[.float, .float], .object, "FloatBiFunction", "apply", .function, "primitive-mixed", [.andThen]⟩,
   ⟨[.float, .float], .boolean, "FloatBiPredicate", "test", .predicate, "primitive-mixed", [.logicalAnd, .logicalOr, .instanceNegated]⟩,
   ⟨[.float, .float], .float, "FloatBinaryOperator", "applyAsFloat", .operator, "primitive-mixed", []⟩,
   ⟨[.int, .int], .void, "IntBiConsumer", "accept", .consumer, "core", [.andThen]⟩,
   ⟨[.int, .int], .object, "IntBiFunction", "apply", .function, "core", [.andThen]⟩,
   ⟨[.int, .int], .boolean, "IntBiPredicate", "test", .predicate, "core", [.logicalAnd, .logicalOr, .instanceNegated]⟩,
   ⟨[.long, .long], .void, "LongBiConsumer", "accept", .consumer, "core", [.andThen]⟩,
   ⟨[.long, .long], .object, "LongBiFunction", "apply", .function, "core", [.andThen]⟩,
   ⟨[.long, .long], .boolean, "LongBiPredicate", "test", .predicate, "core", [.logicalAnd, .logicalOr, .instanceNegated]⟩,
   ⟨[.short, .short], .void, "ShortBiConsumer", "accept", .consumer, "primitive-mixed", [.andThen]⟩,
   ⟨[.short, .short], .object, "ShortBiFunction", "apply", .function, "primitive-mixed", [.andThen]⟩,
   ⟨[.short, .short], .boolean, "ShortBiPredicate", "test", .predicate, "primitive-mixed", [.logicalAnd, .logicalOr, .instanceNegated]⟩,
   ⟨[.short, .short], .short, "ShortBinaryOperator", "applyAsShort", .operator, "primitive-mixed", []⟩,
   ⟨[.object, .object, .object], .object, "TriFunction", "apply", .function, "core", [.andThen]⟩,
   ⟨[.object, .object, .object], .boolean, "TriPredicate", "test", .predicate, "core", [.logicalAnd, .logicalOr, .instanceNegated]⟩,
   ⟨[.object, .object, .object, .object], .object, "TetraFunction", "apply", .function, "core", [.andThen]⟩,
   ⟨[.object, .object, .object, .object], .boolean, "TetraPredicate", "test", .predicate, "core", [.logicalAnd, .logicalOr, .instanceNegated]⟩
  ]

/-- The 250 descriptors of the actual run, listed explicitly in emission
order (proved equal to `emitted` below). -/
def E250 : List Desc :=
  E250p0 ++ E250p1 ++ E250p2 ++ E250p3 ++ E250p4 ++ E250p5 ++ E250p6 ++ E250p7 ++ E250p8 ++ E250p9

/-! Auxiliary lemmas used to evaluate the argument filter over the full
cartesian product without brute-forcing the 104976 four-tuples. -/

theorem length_mem_productR {ts : List Ty} :
    ∀ {n : Nat} {l : List Ty}, l ∈ productR ts n → l.length = n := by
  intro n
  induction n with
  | zero =>
    intro l hl
    simp only [productR, List.mem_singleton] at hl
    simp [hl]
  | succ n ih =>
    intro l hl
    simp only [productR, List.mem_flatMap, List.mem_map] at hl
    obtain ⟨t, _, l', hl', rfl⟩ := hl
    simp [ih hl']

theorem dedup_all_eq {l : List Ty} {t : Ty} (hne : l ≠ [])
    (h : l.all (· == t) = true) : l.dedup = [t] := by
  induction l with
  | nil => exact absurd rfl hne
  | cons a l ih =>
    simp only [List.all_cons, Bool.and_eq_true, beq_iff_eq] at h
    obtain ⟨rfl, hall⟩ := h
    cases l with
    | nil => rfl
    | cons b l' =>
      have hb : a ∈ b :: l' := by
        simp only [List.all_cons, Bool.and_eq_true, beq_iff_eq] at hall
        simp [hall.1]
      rw [List.dedup_cons_of_mem hb]
      exact ih (by simp) (by simpa using hall)

theorem countArr_all_object {l : List Ty} (h : l.all (· == Ty.object) = true) :
    countArr l = 0 := by
  have : l.filter isArr = [] := by
    rw [List.filter_eq_nil_iff]
    intro a ha
    have := (List.all_eq_true.mp h) a ha
    simp only [beq_iff_eq] at this
    simp [this, isArr]
  simp [countArr, this]

theorem admitArgs_of_length_gt_two {l : List Ty} (h : 2 < l.length) :
    admitArgs l = l.all (· == Ty.object) := by
  have h2 : decide (l.length > 2) = true := by simpa using h
  cases hall : l.all (· == Ty.object) with
  | true =>
    have hne : l ≠ [] := by
      intro hnil
      rw [hnil] at h
      exact absurd h (by decide)
    have hd : nDistinct l = 1 := by
      simp [nDistinct, dedup_all_eq hne hall]
    have hc : countArr l = 0 := countArr_all_object hall
    have hs : setEq1 l Ty.object = true := by
      simp [setEq1, hall, List.isEmpty_eq_false.mpr hne]
    simp [admitArgs, hd, hc, hs]
  | false =>
    have hs : setEq1 l Ty.object = false := by
      simp [setEq1, hall]
    simp [admitArgs, hs, h2]

theorem filter_flatMap_list {α β : Type} (l : List α) (f : α → List β)
    (p : β → Bool) :
    (l.flatMap f).filter p = l.flatMap (fun a => (f a).filter p) := by
  induction l with
  | nil => rfl
  | cons a l ih => simp [List.flatMap_cons, List.filter_append, ih]

theorem filter_allObj_cons_map (t : Ty) (L : List (List Ty)) :
    ((L.map (t :: ·)).filter (fun l => l.all (· == Ty.object))) =
      if t = Ty.object then
        ((L.filter (fun l => l.all (· == Ty.object))).map (t :: ·))
      else [] := by
  rw [List.filter_map]
  by_cases ht : t = Ty.object
  · subst ht
    rw [if_pos rfl]
    congr 1
  · rw [if_neg ht]
    have hnil : (L.filter ((fun l => l.all (· == Ty.object)) ∘ (t :: ·))) = [] := by
      rw [List.filter_eq_nil_iff]
      intro l _
      simp [Function.comp, List.all_cons, ht]
    simp [hnil]

theorem filter_allObj_productR :
    ∀ n : Nat, (productR argTys n).filter (fun l => l.all (· == Ty.object)) =
      [List.replicate n Ty.object] := by
  intro n
  induction n with
  | zero => rfl
  | succ n ih =>
    rw [productR, filter_flatMap_list]
    have hne : ∀ t ∈ argTys.drop 1, t ≠ Ty.object := by decide
    have hrest : ∀ t ∈ argTys.drop 1,
        ((productR argTys n).map (t :: ·)).filter
          (fun l => l.all (· == Ty.object)) = [] := by
      intro t ht
      rw [filter_allObj_cons_map, if_neg (hne t ht)]
    have key : ∀ g : Ty → List (List Ty),
        argTys.flatMap g = g Ty.object ++ (argTys.drop 1).flatMap g :=
      fun g => rfl
    rw [key, filter_allObj_cons_map, if_pos rfl, ih,
      List.flatMap_eq_nil_iff.mpr hrest, List.append_nil, List.map_singleton,
      ← List.replicate_succ]

theorem filter_productR_big {n : Nat} (h : 2 < n) :
    (productR argTys n).filter admitArgs = [List.replicate n Ty.object] := by
  rw [List.filter_congr (fun l hl =>
    admitArgs_of_length_gt_two (by rw [length_mem_productR hl]; exact h))]
  exact filter_allObj_productR n

set_option maxRecDepth 4000 in
/-- The argument filter applied to the full candidate space yields exactly
the 47 tuples of `A47`, in enumeration order. -/
theorem argv_filter_eq : argLists.filter admitArgs = A47 := by
  have hsplit : argLists =
      productR argTys 0 ++ (productR argTys 1 ++ (productR argTys 2 ++
        (productR argTys 3 ++ (productR argTys 4 ++ [])))) := rfl
  have h0 : (productR argTys 0).filter admitArgs = [[]] := by decide
  have h1 : (productR argTys 1).filter admitArgs = (A47.drop 1).take 18 := by
    decide
  have h2 : (productR argTys 2).filter admitArgs = (A47.drop 19).take 26 := by
    decide
  have h3 := filter_productR_big (n := 3) (by decide)
  have h4 := filter_productR_big (n := 4) (by decide)
  rw [hsplit, List.filter_append, List.filter_append, List.filter_append,
    List.filter_append, List.filter_append, h0, h1, h2, h3, h4]
  decide


/-- The run evaluates to the emission over the 47 surviving argument
tuples. -/
theorem emitted_eq : emitted = emitFrom A47 built_ins := by
  unfold emitted run
  rw [argv_filter_eq]

theorem survivingSigs_eq : survivingSigs = sigsFrom A47 := by
  unfold survivingSigs
  rw [argv_filter_eq]

theorem mem_sigsFrom {argvs : List (List Ty)} {s : List Ty × Ty}
    (h : s ∈ sigsFrom argvs) : s.1 ∈ argvs ∧ admitRet s.1 s.2 = true := by
  simp only [sigsFrom, List.mem_flatMap, List.mem_map, List.mem_filter] at h
  obtain ⟨argv, hargv, ret, ⟨_, hret⟩, rfl⟩ := h
  exact ⟨hargv, hret⟩

theorem mem_survivingSigs {s : List Ty × Ty} (h : s ∈ survivingSigs) :
    admitArgs s.1 = true ∧ admitRet s.1 s.2 = true := by
  unfold survivingSigs at h
  have h' := mem_sigsFrom h
  exact ⟨(List.mem_filter.mp h'.1).2, h'.2⟩

theorem mem_emitted {d : Desc} (h : d ∈ emitted) :
    ∃ s ∈ survivingSigs, d = synthesize s.1 s.2 ∧
      built_ins.contains d.name = false := by
  unfold emitted run emitFrom at h
  rw [List.mem_filterMap] at h
  obtain ⟨s, hs, hd⟩ := h
  dsimp only at hd
  split at hd
  · exact absurd hd (by simp)
  · rename_i hc
    rw [Option.some_inj] at hd
    subst hd
    exact ⟨s, hs, rfl, by simpa using hc⟩

/-- Every emitted descriptor is the synthesis of its own signature fields. -/
theorem mem_emitted_fields {d : Desc} (h : d ∈ emitted) :
    d = synthesize d.argv d.ret ∧ admitArgs d.argv = true ∧
      admitRet d.argv d.ret = true := by
  obtain ⟨s, hs, rfl, _⟩ := mem_emitted h
  have := mem_survivingSigs hs
  exact ⟨rfl, this.1, this.2⟩


set_option maxRecDepth 10000 in
set_option maxHeartbeats 4000000 in
/-- The actual run emits exactly the 250 descriptors of `E250`. -/
theorem emitted_eq_concrete : emitted = E250 := by
  rw [emitted_eq]
  decide


/-! The claims. -/

set_option maxRecDepth 100000 in
set_option maxHeartbeats 4000000 in
/-- Claim C1: across one full run, the emitted descriptor names are pairwise
distinct, and every emitted name is disjoint from the reserved built-in name
set. -/
theorem claim1_names_unique_and_unreserved :
    emittedNames.Nodup ∧ ∀ n ∈ emittedNames, n ∉ built_ins := by
  have h : emittedNames = E250.map (·.name) := by
    unfold emittedNames
    rw [emitted_eq_concrete]
  rw [h]
  constructor
  · have hkey : ((E250.map (·.name)).map strKey).Nodup := by decide
    exact hkey.of_map
  · have hdisj : ∀ k ∈ (E250.map (·.name)).map strKey,
        k ∉ built_ins.map strKey := by decide
    intro n hn hmem
    exact hdisj (strKey n) (List.mem_map_of_mem strKey hn)
      (List.mem_map_of_mem strKey hmem)

set_option maxRecDepth 100000 in
set_option maxHeartbeats 1000000 in
/-- Witness for claim C1 at the concrete emitted name "ByteSupplier". -/
theorem claim1_witness : "ByteSupplier" ∉ built_ins :=
  claim1_names_unique_and_unreserved.2 "ByteSupplier"
    (by unfold emittedNames; rw [emitted_eq_concrete]; decide)

set_option maxRecDepth 100000 in
set_option maxHeartbeats 1000000 in
/-- Claim C2 counterexample: the argc-1 int→int signature synthesizes the
name "IntUnaryOperator", but no descriptor with that name is emitted. -/
theorem claim2_counterexample :
    (synthName [Ty.int] Ty.int).1 = "IntUnaryOperator" ∧
      "IntUnaryOperator" ∉ emittedNames := by
  refine ⟨by decide, ?_⟩
  unfold emittedNames
  rw [emitted_eq_concrete]
  decide

set_option maxRecDepth 100000 in
set_option maxHeartbeats 1000000 in
/-- Claim C2 amended: for the argc-1 int→int signature the synthesizer
derives the name "IntUnaryOperator" with method "applyAsInt", and the
capability predicates admit identity, sequencing and composition for it; but
"IntUnaryOperator" is in the reserved built-in set, so the signature is
dropped and no descriptor with that name is emitted. -/
theorem claim2_amended :
    synthName [Ty.int] Ty.int = ("IntUnaryOperator", "applyAsInt") ∧
    "IntUnaryOperator" ∈ built_ins ∧
    Cap.identity ∈ caps [Ty.int] Ty.int ∧
    Cap.andThen ∈ caps [Ty.int] Ty.int ∧
    Cap.compose ∈ caps [Ty.int] Ty.int ∧
    "IntUnaryOperator" ∉ emittedNames := by
  refine ⟨by decide, by decide, by decide, by decide, by decide, ?_⟩
  unfold emittedNames
  rw [emitted_eq_concrete]
  decide

set_option maxRecDepth 100000 in
set_option maxHeartbeats 1000000 in
/-- Claim C3 counterexample: ByteUnaryOperator ([byte] → byte) is emitted and
involves no array-segment type in its arguments or return, yet its group is
"primitive-mixed", not "core". -/
theorem claim3_counterexample :
    synthesize [Ty.byte] Ty.byte ∈ emitted ∧
    (synthesize [Ty.byte] Ty.byte).argv.all (fun a => !isArr a) = true ∧
    isArr (synthesize [Ty.byte] Ty.byte).ret = false ∧
    (synthesize [Ty.byte] Ty.byte).group = "primitive-mixed" := by
  refine ⟨?_, by decide, by decide, by decide⟩
  rw [emitted_eq_concrete]
  decide

set_option maxRecDepth 100000 in
set_option maxHeartbeats 2000000 in
/-- Claim C3 amended: for every emitted descriptor, the group is
"array-based" iff some argument is an array-segment type; the group is
"core" iff every argument type is object/int/long/double and the return type
is object/int/long/double/boolean/void; and the group is "primitive-mixed"
iff neither holds (scalar shapes over boolean/byte/char/float/short). -/
theorem claim3_amended :
    ∀ d ∈ emitted,
      (d.group = "array-based" ↔ d.argv.any isArr = true) ∧
      (d.group = "core" ↔
        (d.argv.all (fun a =>
          a == Ty.object || a == Ty.int || a == Ty.long || a == Ty.double) =
            true ∧
         (d.ret = Ty.object ∨ d.ret = Ty.int ∨ d.ret = Ty.long ∨
          d.ret = Ty.double ∨ d.ret = Ty.boolean ∨ d.ret = Ty.void))) ∧
      (d.group = "primitive-mixed" ↔
        (d.argv.any isArr = false ∧
         ¬(d.argv.all (fun a =>
            a == Ty.object || a == Ty.int || a == Ty.long || a == Ty.double) =
              true ∧
           (d.ret = Ty.object ∨ d.ret = Ty.int ∨ d.ret = Ty.long ∨
            d.ret = Ty.double ∨ d.ret = Ty.boolean ∨ d.ret = Ty.void)))) := by
  rw [emitted_eq_concrete]
  decide

set_option maxRecDepth 100000 in
set_option maxHeartbeats 1000000 in
/-- Witness for claim C3's amended theorem at ByteUnaryOperator. -/
theorem claim3_witness :
    (synthesize [Ty.byte] Ty.byte).group = "primitive-mixed" :=
  ((claim3_amended (synthesize [Ty.byte] Ty.byte)
    (by rw [emitted_eq_concrete]; decide)).2.2).mpr ⟨by decide, by decide⟩

set_option maxRecDepth 100000 in
set_option maxHeartbeats 1000000 in
/-- Claim C4 counterexample: ByteSupplier (argc 0, byte return, role
supplier) is emitted with a non-void return type yet does not carry the
sequencing (andThen) capability; likewise ByteBinaryOperator (role operator,
argc 2). -/
theorem claim4_counterexample :
    synthesize [] Ty.byte ∈ emitted ∧
    (synthesize [] Ty.byte).role = Role.supplier ∧
    (synthesize [] Ty.byte).ret ≠ Ty.void ∧
    Cap.andThen ∉ (synthesize [] Ty.byte).caps ∧
    synthesize [Ty.byte, Ty.byte] Ty.byte ∈ emitted ∧
    (synthesize [Ty.byte, Ty.byte] Ty.byte).role = Role.operator ∧
    Cap.andThen ∉ (synthesize [Ty.byte, Ty.byte] Ty.byte).caps := by
  refine ⟨?_, by decide, by decide, by decide, ?_, by decide, by decide⟩
  · rw [emitted_eq_concrete]; decide
  · rw [emitted_eq_concrete]; decide

set_option maxRecDepth 100000 in
set_option maxHeartbeats 2000000 in
/-- Claim C4 amended: sequencing (andThen) is present on an emitted
descriptor iff its return type is no-value, or its return type is
generic-object (supplier/function result transform), or it is a unary
operator (role operator with argc 1).  Scalar-returning suppliers such as
ByteSupplier and binary operators such as ByteBinaryOperator do not carry
sequencing. -/
theorem claim4_amended :
    ∀ d ∈ emitted,
      Cap.andThen ∈ d.caps ↔
        (d.ret = Ty.void ∨ d.ret = Ty.object ∨
         (d.role = Role.operator ∧ d.argv.length = 1)) := by
  rw [emitted_eq_concrete]
  decide

set_option maxRecDepth 100000 in
set_option maxHeartbeats 1000000 in
/-- Witness for claim C4's amended theorem at BooleanConsumer. -/
theorem claim4_witness :
    Cap.andThen ∈ (synthesize [Ty.boolean] Ty.void).caps :=
  (claim4_amended (synthesize [Ty.boolean] Ty.void)
    (by rw [emitted_eq_concrete]; decide)).mpr (Or.inl (by decide))

set_option maxRecDepth 100000 in
set_option maxHeartbeats 1000000 in
/-- Claim C5 counterexample: ByteBinaryOperator is an emitted descriptor
with role operator whose argc is 2, not 1. -/
theorem claim5_counterexample :
    synthesize [Ty.byte, Ty.byte] Ty.byte ∈ emitted ∧
    (synthesize [Ty.byte, Ty.byte] Ty.byte).role = Role.operator ∧
    (synthesize [Ty.byte, Ty.byte] Ty.byte).argv.length = 2 := by
  refine ⟨?_, by decide, by decide⟩
  rw [emitted_eq_concrete]
  decide

set_option maxRecDepth 100000 in
set_option maxHeartbeats 2000000 in
/-- Claim C5 amended: for every emitted descriptor with role operator, argc
is 1 or 2 and every argument type equals the return type (in particular the
return type equals the first argument type); for every emitted descriptor
with role predicate, the return type is boolean and the argument-type set is
not the boolean singleton. -/
theorem claim5_amended :
    ∀ d ∈ emitted,
      (d.role = Role.operator →
        (d.argv.length = 1 ∨ d.argv.length = 2) ∧
        d.argv.all (· == d.ret) = true ∧ d.argv.headD d.ret = d.ret) ∧
      (d.role = Role.predicate →
        d.ret = Ty.boolean ∧ setEq1 d.argv Ty.boolean = false) := by
  rw [emitted_eq_concrete]
  decide

set_option maxRecDepth 100000 in
set_option maxHeartbeats 1000000 in
/-- Witness for claim C5's amended theorem at ByteBinaryOperator. -/
theorem claim5_witness :
    (synthesize [Ty.byte, Ty.byte] Ty.byte).argv.all
      (· == (synthesize [Ty.byte, Ty.byte] Ty.byte).ret) = true :=
  (((claim5_amended (synthesize [Ty.byte, Ty.byte] Ty.byte)
    (by rw [emitted_eq_concrete]; decide)).1 (by decide)).2).1

/-- Claim C6: any candidate signature with two or more array-segment
arguments is rejected by the argument filter, so no such signature survives
and no emitted descriptor carries such an argument tuple. -/
theorem claim6_array_arity (argv : List Ty) (ret : Ty)
    (h : 2 ≤ countArr argv) :
    admitArgs argv = false ∧ (argv, ret) ∉ survivingSigs ∧
      ∀ d ∈ emitted, d.argv ≠ argv := by
  have hf : admitArgs argv = false := by
    unfold admitArgs
    have hc : decide (countArr argv > 1) = true := by simpa using h
    simp [hc]
  refine ⟨hf, ?_, ?_⟩
  · intro hmem
    exact absurd (mem_survivingSigs hmem).1 (by simp [hf])
  · intro d hd hEq
    have hfields := (mem_emitted_fields hd).2.1
    rw [hEq, hf] at hfields
    exact Bool.false_ne_true hfields

/-- Witness for claim C6 at a candidate with two array-segment arguments. -/
theorem claim6_witness :
    admitArgs [Ty.byteArr, Ty.intArr] = false ∧
      ([Ty.byteArr, Ty.intArr], Ty.void) ∉ survivingSigs :=
  ⟨(claim6_array_arity [Ty.byteArr, Ty.intArr] Ty.void (by decide)).1,
   (claim6_array_arity [Ty.byteArr, Ty.intArr] Ty.void (by decide)).2.1⟩

set_option maxRecDepth 100000 in
set_option maxHeartbeats 2000000 in
/-- Claim C7: no emitted descriptor's return type is an array-segment type;
and every emitted descriptor with an array-segment argument returns one of
generic-object, boolean, no-value, int, long, double, or a type whose
array-segment form appears among the argument types. -/
theorem claim7_array_returns :
    ∀ d ∈ emitted,
      isArr d.ret = false ∧
      (d.argv.any isArr = true →
        (d.ret = Ty.object ∨ d.ret = Ty.boolean ∨ d.ret = Ty.void ∨
         d.ret = Ty.int ∨ d.ret = Ty.long ∨ d.ret = Ty.double ∨
         d.argv.any (fun a => tyKey a == tyKey d.ret ++ "[]") = true)) := by
  rw [emitted_eq_concrete]
  decide

set_option maxRecDepth 100000 in
set_option maxHeartbeats 1000000 in
/-- Witness for claim C7 at ByteArraySegmentConsumer. -/
theorem claim7_witness :
    isArr (synthesize [Ty.byteArr] Ty.void).ret = false :=
  (claim7_array_returns (synthesize [Ty.byteArr] Ty.void)
    (by rw [emitted_eq_concrete]; decide)).1

set_option maxRecDepth 100000 in
set_option maxHeartbeats 2000000 in
/-- Claim C8: logical-and, logical-or and instance negation are present on an
emitted descriptor iff argc > 0, the return type is boolean, and the
argument-type set is not the boolean singleton; and the `&&`/`||` bodies
short-circuit — once this predicate's result determines the outcome, the
compound result is fixed and independent of the other predicate. -/
theorem claim8_predicate_combinators :
    (∀ d ∈ emitted,
      (Cap.logicalAnd ∈ d.caps ↔
        (0 < d.argv.length ∧ d.ret = Ty.boolean ∧
          setEq1 d.argv Ty.boolean = false)) ∧
      (Cap.logicalOr ∈ d.caps ↔
        (0 < d.argv.length ∧ d.ret = Ty.boolean ∧
          setEq1 d.argv Ty.boolean = false)) ∧
      (Cap.instanceNegated ∈ d.caps ↔
        (0 < d.argv.length ∧ d.ret = Ty.boolean ∧
          setEq1 d.argv Ty.boolean = false))) ∧
    (∀ (α : Type) (p q₁ q₂ : α → Bool) (a : α), p a = false →
      andBody p q₁ a = false ∧ andBody p q₁ a = andBody p q₂ a) ∧
    (∀ (α : Type) (p q₁ q₂ : α → Bool) (a : α), p a = true →
      orBody p q₁ a = true ∧ orBody p q₁ a = orBody p q₂ a) := by
  refine ⟨?_, ?_, ?_⟩
  · rw [emitted_eq_concrete]
    decide
  · intro α p q₁ q₂ a hp
    simp [andBody, hp]
  · intro α p q₁ q₂ a hp
    simp [orBody, hp]

set_option maxRecDepth 100000 in
set_option maxHeartbeats 1000000 in
/-- Witness for claim C8 at BytePredicate and a concrete short-circuit
instance. -/
theorem claim8_witness :
    Cap.logicalAnd ∈ (synthesize [Ty.byte] Ty.boolean).caps ∧
      andBody (fun _ => false) (fun _ => true) 0 = false :=
  ⟨((claim8_predicate_combinators.1 (synthesize [Ty.byte] Ty.boolean)
      (by rw [emitted_eq_concrete]; decide)).1).mpr
      ⟨by decide, by decide, by decide⟩,
   (claim8_predicate_combinators.2.1 Nat (fun _ => false) (fun _ => true)
      (fun _ => true) 0 rfl).1⟩

/-- Claim C9: the generator is deterministic and idempotent — the run is a
pure function of the catalog (fixed in the definitions) and the reserved-name
set, so two runs with equal reserved sets produce the same rendered artifact
sequence and in particular the same descriptor-name sequence, capability
method sets, method bodies and intra-file ordering. -/
theorem claim9_deterministic (r₁ r₂ : List String) (h : r₁ = r₂) :
    renderRun r₁ = renderRun r₂ ∧
      (renderRun r₁).map (fun r => r.desc.name) =
        (renderRun r₂).map (fun r => r.desc.name) := by
  subst h
  exact ⟨rfl, rfl⟩

/-- Witness for claim C9 at the actual reserved set. -/
theorem claim9_witness : renderRun built_ins = renderRun built_ins :=
  (claim9_deterministic built_ins built_ins rfl).1

/-- Claim C10: every argument tuple that passes the argument-shape filter and
has more than one distinct argument type is exactly `[object, x]` with
`x ≠ object` — so the assertions guarding the script's heterogeneous
argument-descriptor and documentation branches cannot fail. -/
theorem claim10_heterogeneous_shape (argv : List Ty)
    (h : admitArgs argv = true) (hd : 1 < nDistinct argv) :
    ∃ x, argv = [Ty.object, x] ∧ x ≠ Ty.object := by
  have hlen2 : argv.length = 2 := by
    have hle : nDistinct argv ≤ argv.length :=
      (List.dedup_sublist argv).length_le
    have h2le : 2 ≤ argv.length := le_trans hd hle
    by_contra hne
    have h3 : 2 < argv.length := lt_of_le_of_ne h2le (fun e => hne e.symm)
    rw [admitArgs_of_length_gt_two h3] at h
    have hded : argv.dedup = [Ty.object] :=
      dedup_all_eq
        (by intro hnil; rw [hnil] at h3; exact absurd h3 (by decide)) h
    simp only [nDistinct, hded] at hd
    exact absurd hd (by decide)
  obtain ⟨a, b, rfl⟩ := List.length_eq_two.mp hlen2
  have key : ∀ x y : Ty, admitArgs [x, y] = true → 1 < nDistinct [x, y] →
      x = Ty.object ∧ y ≠ Ty.object := by decide
  obtain ⟨ha, hb⟩ := key a b h hd
  exact ⟨b, by rw [ha], hb⟩

/-- Witness for claim C10 at the tuple [object, int]. -/
theorem claim10_witness :
    ∃ x, [Ty.object, Ty.int] = [Ty.object, x] ∧ x ≠ Ty.object :=
  claim10_heterogeneous_shape [Ty.object, Ty.int] (by decide) (by decide)

end FunctionGenerator
